import Mathlib

/-!
Verification development for the interactive data visualizer (src/projeto.py).

The program is a Dash app with three callbacks over a shared `dcc.Store`:
 * `parse_contents` / `update_data_store`  — ingestion of an uploaded file or a URL,
 * `update_dropdowns_and_visibility`       — schema projection of the stored snapshot,
 * `update_graph`                          — chart dispatch.

We shallowly embed those functions.  External collaborators (pandas parsers,
base64 decoding, plotly figure constructors) are black boxes: the parsers are
fields of an `Env` record returning either a dataset or a raised exception's
message text; plotly constructors are uninterpreted constructors recording
exactly the arguments the source passes them.
-/

set_option autoImplicit false

namespace Projeto

/-- A scalar cell of a tabular dataset.  `date` is a date-valued cell (year,
month, day); the other constructors are already-textual / numeric / boolean
values. -/
inductive Scalar where
  | str (s : String)
  | num (n : Int)
  | bool (b : Bool)
  | date (y m d : Nat)
  deriving DecidableEq

/-- The canonical in-memory tabular structure: ordered named columns and
row-major rows (a pandas DataFrame, as far as this program observes it). -/
structure Dataset where
  columns : List String
  rows : List (List Scalar)
  deriving DecidableEq

/-- A JSON scalar as it appears in the serialized snapshot. -/
inductive JsonVal where
  | jstr (s : String)
  | jnum (n : Int)
  | jbool (b : Bool)
  deriving DecidableEq

/-- The serialized transport form of a `Dataset`: the `orient that equals split`
JSON layout produced by `df.to_json(date_format=iso, orient=split)` —
a `columns` list, a default range `index`, and row-major `data`. -/
structure Snapshot where
  columns : List String
  index : List Nat
  data : List (List JsonVal)
  deriving DecidableEq

/-- Zero-padded two-digit rendering of a number, as in ISO-8601 dates. -/
def pad2 (n : Nat) : String :=
  if n < 10 then "0" ++ toString n else toString n

/-- Zero-padded four-digit rendering of a year, as in ISO-8601 dates. -/
def pad4 (n : Nat) : String :=
  if n < 10 then "000" ++ toString n
  else if n < 100 then "00" ++ toString n
  else if n < 1000 then "0" ++ toString n
  else toString n

/-- The fixed canonical textual representation of a date cell
(`date_format` set to `iso` in `to_json`). -/
def isoOfDate (y m d : Nat) : String :=
  pad4 y ++ "-" ++ pad2 m ++ "-" ++ pad2 d ++ "T00:00:00.000"

/-- Modelled from the spec: serialization of one cell by the external pandas
`to_json(date_format=iso, orient=split)` call (src/projeto.py line 130) —
dates become their canonical ISO text, other scalars map to the matching JSON
scalar. -/
def serializeScalar : Scalar → JsonVal
  | .str s => .jstr s
  | .num n => .jnum n
  | .bool b => .jbool b
  | .date y m d => .jstr (isoOfDate y m d)

/-- Modelled from the spec: deserialization of one cell by the external pandas
`read_json(orient=split)` call (src/projeto.py lines 150 and 174): JSON
scalars come back as the corresponding cells, date cells having been
normalized to their textual form by serialization. -/
def deserializeScalar : JsonVal → Scalar
  | .jstr s => .str s
  | .jnum n => .num n
  | .jbool b => .bool b

/-- Modelled from the spec: `df.to_json(date_format=iso, orient=split)`. -/
def serialize (d : Dataset) : Snapshot :=
  { columns := d.columns
    index := List.range d.rows.length
    data := d.rows.map (fun r => r.map serializeScalar) }

/-- Modelled from the spec: `pd.read_json(snapshot, orient=split)`. -/
def deserialize (s : Snapshot) : Dataset :=
  { columns := s.columns
    rows := s.data.map (fun r => r.map deserializeScalar) }

/-- One cell after date normalization: dates replaced by their canonical
ISO text, everything else unchanged. -/
def normalizeScalar : Scalar → Scalar
  | .date y m d => .str (isoOfDate y m d)
  | v => v

/-- A dataset with every date cell rewritten to its canonical ISO text. -/
def normalizeDataset (d : Dataset) : Dataset :=
  { columns := d.columns
    rows := d.rows.map (fun r => r.map normalizeScalar) }

/-- A cell is normal when it is not a raw date (it survives serialization
unchanged). -/
def normalScalar : Scalar → Bool
  | .date _ _ _ => false
  | _ => true

/-- A dataset is normal (representable by the snapshot form verbatim) when
none of its cells is a raw date. -/
def normalDataset (d : Dataset) : Bool :=
  d.rows.all (fun r => r.all normalScalar)

/-! ## Substring matching

Python's `needle in haystack` on strings is containment of `needle` as a
contiguous (case-sensitive) substring. -/

/-- `charsStart needle hay`: `needle` is a prefix of `hay` (character lists). -/
def charsStart : List Char → List Char → Bool
  | [], _ => true
  | _ :: _, [] => false
  | a :: as, b :: bs => a == b && charsStart as bs

/-- `charsHave needle hay`: `needle` occurs contiguously inside `hay`. -/
def charsHave (needle : List Char) : List Char → Bool
  | [] => needle.isEmpty
  | b :: bs => charsStart needle (b :: bs) || charsHave needle bs

/-- Python's case-sensitive `needle in hay` on strings. -/
def strContains (hay needle : String) : Bool :=
  charsHave needle.data hay.data

/-- ASCII-lowercased copy of a string. -/
def lowerStr (s : String) : String :=
  String.mk (s.data.map Char.toLower)

/-- Case-insensitive substring containment (what the claim attributes to the
filename dispatch). -/
def strContainsCI (hay needle : String) : Bool :=
  strContains (lowerStr hay) (lowerStr needle)

/-! ## External collaborators -/

/-- The external collaborators consumed by ingestion.  Each pandas call either
returns a dataframe or raises; we model a raised exception by `Except.error`
carrying the exception's message text (`str(e)`).  `b64decode` is the external
`base64.b64decode` on the transport payload, yielding the decoded bytes. -/
structure Env where
  b64decode : String → List Nat
  read_csv : List Nat → Except String Dataset
  read_excel : List Nat → Except String Dataset
  read_csv_url : String → Except String Dataset

/-- The `contents` value delivered by `dcc.Upload`: a data-URL whose two
comma-separated halves the source unpacks as
`content_type, content_string = contents.split(,)` (src/projeto.py line 83). -/
structure UploadContents where
  contentType : String
  contentString : String

/-- Embedding of `parse_contents(contents, filename)` (src/projeto.py lines
81–97).  Result: the optional dataframe, the user-visible status message, and
the list of exception texts printed to the operator console by `print(e)`.
The base64 decode happens before the try block; the `else` arm returns the
unsupported-format message from inside the try block without raising; an
exception from either parser is caught, printed, and replaced by the fixed
generic message. -/
def parse_contents (env : Env) (contents : UploadContents) (filename : String) :
    Option Dataset × String × List String :=
  let decoded := env.b64decode contents.contentString
  if strContains filename "csv" then
    match env.read_csv decoded with
    | .ok df => (some df, "Arquivo \x27" ++ filename ++ "\x27 carregado com sucesso!", [])
    | .error e => (none, "Ocorreu um erro ao processar o arquivo.", [e])
  else if strContains filename "xls" then
    match env.read_excel decoded with
    | .ok df => (some df, "Arquivo \x27" ++ filename ++ "\x27 carregado com sucesso!", [])
    | .error e => (none, "Ocorreu um erro ao processar o arquivo.", [e])
  else
    (none, "Tipo de arquivo \x27" ++ filename ++ "\x27 não suportado.", [])

/-- The outcome of the CSV branch of `parse_contents` (line 88 with the shared
returns at lines 94 and 97): what ingestion produces when the CSV parser is
the one consulted. -/
def csvBranch (env : Env) (contents : UploadContents) (filename : String) :
    Option Dataset × String × List String :=
  match env.read_csv (env.b64decode contents.contentString) with
  | .ok df => (some df, "Arquivo \x27" ++ filename ++ "\x27 carregado com sucesso!", [])
  | .error e => (none, "Ocorreu um erro ao processar o arquivo.", [e])

/-- The outcome of the Excel branch of `parse_contents` (line 91 with the
shared returns at lines 94 and 97). -/
def xlsBranch (env : Env) (contents : UploadContents) (filename : String) :
    Option Dataset × String × List String :=
  match env.read_excel (env.b64decode contents.contentString) with
  | .ok df => (some df, "Arquivo \x27" ++ filename ++ "\x27 carregado com sucesso!", [])
  | .error e => (none, "Ocorreu um erro ao processar o arquivo.", [e])

/-! ## Callback 1: `update_data_store` -/

/-- Which reactive input fired the ingestion callback
(`callback_context.triggered_id`). -/
inductive Trigger where
  | upload_data
  | load_url_button
  | other

/-- Python truthiness of the URL text-input value: `None` and the empty
string are falsy. -/
def truthyOptStr : Option String → Bool
  | none => false
  | some s => !(s == "")

/-- The `html.P(status_message, style=color)` status line pushed to the UI. -/
structure PStatus where
  text : String
  color : String
  deriving DecidableEq

/-- Embedding of `update_data_store(contents, n_clicks, filename, url)`
(src/projeto.py lines 112–132).  First output is the new `dcc.Store` data
(the serialized snapshot, or `None`); second is the status line, green on
success and red otherwise.  `n_clicks` is only a trigger and is unused in the
body. -/
def update_data_store (env : Env) (trig : Trigger) (contents : Option UploadContents)
    (_nClicks : Nat) (filename : String) (url : Option String) :
    Option Snapshot × PStatus :=
  let step : Option Dataset × String :=
    match trig, contents with
    | .upload_data, some c =>
      let r := parse_contents env c filename
      (r.1, r.2.1)
    | .upload_data, none => (none, "")
    | .load_url_button, _ =>
      if truthyOptStr url then
        match env.read_csv_url (url.getD "") with
        | .ok df => (some df, "Dados carregados com sucesso do link!")
        | .error e => (none, "Erro ao carregar do link: " ++ e)
      else (none, "")
    | .other, _ => (none, "")
  match step.1 with
  | some df => (some (serialize df), ⟨step.2, "green"⟩)
  | none => (none, ⟨step.2, "red"⟩)

/-- Dash writes the callback's first Output into the `stored-data` store,
replacing whatever value it held before. -/
def nextStore (_prev : Option Snapshot) (out : Option Snapshot × PStatus) :
    Option Snapshot :=
  out.1

/-! ## Callback 2: `update_dropdowns_and_visibility` -/

/-- Embedding of `update_dropdowns_and_visibility(jsonified_dataframe)`
(src/projeto.py lines 144–158).  Outputs, in order: the container display
style (`none` hidden / `block` shown), x-dropdown options as label/value
pairs, y-dropdown options, initial x value, initial y value.  The initial
values are `df.columns[0] if len(df.columns) > 0 else None` and the analogue
at index 1. -/
def update_dropdowns_and_visibility (jsonified : Option Snapshot) :
    String × List (String × String) × List (String × String) × Option String × Option String :=
  match jsonified with
  | none => ("none", [], [], none, none)
  | some s =>
    let df := deserialize s
    let columns := df.columns.map (fun i => (i, i))
    let initial_x := df.columns[0]?
    let initial_y := df.columns[1]?
    ("block", columns, columns, initial_x, initial_y)

/-! ## Callback 3: `update_graph` -/

/-- A figure constructed by one of the plotly express calls the source makes,
recording exactly the arguments passed (the construction itself is an
external black box). -/
inductive PlotlyFig where
  | scatter (df : Dataset) (x y : String)
  | line (df : Dataset) (x y : String)
  | bar (df : Dataset) (x y : String)
  | histogram (df : Dataset) (x : String)
  | pie (df : Dataset) (names values : String)
  deriving DecidableEq

/-- A plotly figure object together with the transition duration its layout
carries, if `update_layout` has set one. -/
structure PxFigure where
  plot : PlotlyFig
  transition : Option Nat
  deriving DecidableEq

/-- The value of the Python variable `fig`: either the plain dict literal
(the empty placeholder) or a plotly figure object. -/
inductive PyFig where
  | dict0
  | fig (f : PxFigure)
  deriving DecidableEq

/-- `fig.update_layout(transition_duration=d)`: defined on plotly figures;
on the plain dict it raises `AttributeError`. -/
def fig_update_layout (d : Nat) : PyFig → Except String PyFig
  | .dict0 => .error "AttributeError: \x27dict\x27 object has no attribute \x27update_layout\x27"
  | .fig f => .ok (.fig { f with transition := some d })

/-- Python truthiness of a dropdown value: `not xaxis_col` is true exactly
for `None` and the empty string. -/
def falsyStr : Option String → Bool
  | none => true
  | some s => s == ""

/-- The if/elif chain dispatching on `chart_type`
(src/projeto.py lines 177–190); the final `else` leaves `fig` the plain dict. -/
def chartDispatch (df : Dataset) (x y : String) (ct : Option String) : PyFig :=
  if ct == some "scatter" then .fig ⟨.scatter df x y, none⟩
  else if ct == some "line" then .fig ⟨.line df x y, none⟩
  else if ct == some "bar" then .fig ⟨.bar df x y, none⟩
  else if ct == some "histogram" then .fig ⟨.histogram df x, none⟩
  else if ct == some "pie" then .fig ⟨.pie df x y, none⟩
  else .dict0

/-- Embedding of `update_graph(jsonified_dataframe, xaxis_col, yaxis_col,
chart_type)` (src/projeto.py lines 169–193).  The guard returns the plain
dict directly; past the guard the snapshot is deserialized, `fig` is built by
the dispatch chain, and `fig.update_layout(transition_duration=500)` is
applied to it — which raises when `fig` is still the plain dict. -/
def update_graph (jsonified : Option Snapshot) (x y ct : Option String) :
    Except String PyFig :=
  if jsonified.isNone || falsyStr x || falsyStr y then .ok .dict0
  else
    match jsonified with
    | none => .ok .dict0
    | some s => fig_update_layout 500 (chartDispatch (deserialize s) (x.getD "") (y.getD "") ct)

/-! ## Concrete demonstration values -/

/-- A small concrete dataset (the spec's `x,y` over rows `1,2` and `3,4`). -/
def demoDataset : Dataset :=
  { columns := ["x", "y"], rows := [[.num 1, .num 2], [.num 3, .num 4]] }

/-- A dataset with a single column, used to exercise the default-axis rules. -/
def oneColDataset : Dataset :=
  { columns := ["a"], rows := [[.num 1], [.num 2]] }

/-- A dataset containing a raw date cell, exercising date normalization. -/
def dateDataset : Dataset :=
  { columns := ["d", "v"], rows := [[.date 2024 3 7, .num 10]] }

/-- A concrete environment whose parsers always succeed with `demoDataset`. -/
def demoEnv : Env :=
  { b64decode := fun _ => []
    read_csv := fun _ => .ok demoDataset
    read_excel := fun _ => .ok demoDataset
    read_csv_url := fun _ => .ok demoDataset }

/-- A concrete environment whose parsers always raise, with message `boom`. -/
def errEnv : Env :=
  { b64decode := fun _ => []
    read_csv := fun _ => .error "boom"
    read_excel := fun _ => .error "boom"
    read_csv_url := fun _ => .error "boom" }

/-- A concrete uploaded payload. -/
def demoContents : UploadContents :=
  { contentType := "data:text/csv;base64", contentString := "eCx5CjEsMgozLDQK" }

/-- The demo dataset's snapshot, as stored in `dcc.Store`. -/
def demoSnap : Snapshot := serialize demoDataset

/-- The one-column dataset's snapshot. -/
def oneColSnap : Snapshot := serialize oneColDataset

/-! ## Lemmas about substring containment -/

theorem charsStart_append_self (xs zs : List Char) : charsStart xs (xs ++ zs) = true := by
  induction xs with
  | nil => rfl
  | cons a as ih => simp [charsStart, ih]

theorem charsHave_of_start (n h : List Char) (hs : charsStart n h = true) :
    charsHave n h = true := by
  cases h with
  | nil =>
    cases n with
    | nil => rfl
    | cons a as => simp [charsStart] at hs
  | cons b bs => simp [charsHave, hs]

theorem charsHave_infix (p n s : List Char) : charsHave n (p ++ (n ++ s)) = true := by
  induction p with
  | nil => exact charsHave_of_start n (n ++ s) (charsStart_append_self n s)
  | cons c p ih => simp [charsHave, ih]

theorem string_data_append (a b : String) : (a ++ b).data = a.data ++ b.data := rfl

/-- The middle part of a three-way concatenation is contained as a substring. -/
theorem strContains_mid (p mid s : String) : strContains (p ++ mid ++ s) mid = true := by
  show charsHave mid.data (p ++ mid ++ s).data = true
  rw [string_data_append, string_data_append, List.append_assoc]
  exact charsHave_infix p.data mid.data s.data

/-- The right part of a concatenation is contained as a substring. -/
theorem strContains_append_right (p m : String) : strContains (p ++ m) m = true := by
  show charsHave m.data (p ++ m).data = true
  rw [string_data_append]
  have h := charsHave_infix p.data m.data []
  simpa using h

/-! ## Claims -/

/-- C1, counterexample.  The claim says parser choice is a **case-insensitive**
substring match.  For the filename `DATA.CSV` — which contains `csv` up to
letter case — the code's `if csv in filename` test is case-sensitive Python
substring containment, so even with a CSV parser that would succeed
(`demoEnv`), `parse_contents` takes the final `else` and fails with the
unsupported-format message naming the filename, instead of using the CSV
parser. -/
theorem c1_counterexample :
    strContainsCI "DATA.CSV" "csv" = true ∧
    strContains "DATA.CSV" "csv" = false ∧
    strContains "DATA.CSV" "xls" = false ∧
    demoEnv.read_csv (demoEnv.b64decode demoContents.contentString) = Except.ok demoDataset ∧
    (parse_contents demoEnv demoContents "DATA.CSV").1 = none ∧
    (parse_contents demoEnv demoContents "DATA.CSV").2.1 =
      "Tipo de arquivo \x27DATA.CSV\x27 não suportado." := by
  refine ⟨by decide, by decide, by decide, rfl, by decide, by decide⟩

/-- C1, amended: `ingest` chooses the parser by a **case-sensitive** substring
match on the filename: if the filename contains `csv` (exact lower case) the
CSV parser is used; else if it contains `xls` (exact lower case) the
spreadsheet parser is used; and if it contains neither, ingest fails with the
`UnsupportedFormat` outcome (no dataframe, and a message that names that
filename). -/
theorem c1_dispatch_case_sensitive (env : Env) (c : UploadContents) (fn : String) :
    (strContains fn "csv" = true →
      parse_contents env c fn = csvBranch env c fn) ∧
    (strContains fn "csv" = false → strContains fn "xls" = true →
      parse_contents env c fn = xlsBranch env c fn) ∧
    (strContains fn "csv" = false → strContains fn "xls" = false →
      (parse_contents env c fn).1 = none ∧
      (parse_contents env c fn).2.1 = "Tipo de arquivo \x27" ++ fn ++ "\x27 não suportado." ∧
      strContains (parse_contents env c fn).2.1 fn = true) := by
  refine ⟨?_, ?_, ?_⟩
  · intro hcsv
    simp [parse_contents, csvBranch, hcsv]
  · intro hcsv hxls
    simp [parse_contents, xlsBranch, hcsv, hxls]
  · intro hcsv hxls
    refine ⟨?_, ?_, ?_⟩
    · simp [parse_contents, hcsv, hxls]
    · simp [parse_contents, hcsv, hxls]
    · have hmsg : (parse_contents env c fn).2.1 =
          "Tipo de arquivo \x27" ++ fn ++ "\x27 não suportado." := by
        simp [parse_contents, hcsv, hxls]
      rw [hmsg]
      exact strContains_mid "Tipo de arquivo \x27" fn "\x27 não suportado."

/-- C1, witness: the amended dispatch rule applied to the concrete filename
`vendas.CSV`, whose lowercase `csv` is absent, so ingestion rejects it even
though a parser was available. -/
theorem c1_witness :
    (parse_contents demoEnv demoContents "vendas.CSV").1 = none ∧
    (parse_contents demoEnv demoContents "vendas.CSV").2.1 =
      "Tipo de arquivo \x27" ++ "vendas.CSV" ++ "\x27 não suportado." := by
  have h := (c1_dispatch_case_sensitive demoEnv demoContents "vendas.CSV").2.2
    (by decide) (by decide)
  exact ⟨h.1, h.2.1⟩

/-- C2: whenever the stored snapshot is none, or the x selection is
none/empty, or the y selection is none/empty, `update_graph` returns the
empty placeholder dict — for every chart type, histogram included. -/
theorem c2_guard_returns_empty (snap : Option Snapshot) (x y ct : Option String)
    (h : snap = none ∨ falsyStr x = true ∨ falsyStr y = true) :
    update_graph snap x y ct = Except.ok PyFig.dict0 := by
  rcases h with h | h | h <;> simp [update_graph, h]

/-- C2, witness: empty x selection with chart type histogram and a present
snapshot still yields the empty placeholder. -/
theorem c2_witness :
    update_graph (some demoSnap) (some "") (some "y") (some "histogram") =
      Except.ok PyFig.dict0 :=
  c2_guard_returns_empty (some demoSnap) (some "") (some "y") (some "histogram")
    (Or.inr (Or.inl rfl))

/-- C3: the claim says an unrecognized chart type yields Empty without any
error; in the code the `else` arm leaves `fig` as the plain dict `\x7b\x7d`
and the unconditional `fig.update_layout(transition_duration=500)` then
raises `AttributeError` on it.  Evaluated at the failing input: snapshot
present, both axes chosen, chart type `area`. -/
theorem c3_unrecognized_type_raises :
    update_graph (some demoSnap) (some "x") (some "y") (some "area") =
      Except.error "AttributeError: \x27dict\x27 object has no attribute \x27update_layout\x27" := by
  rfl

/-- C4: every failing ingestion attempt — unsupported extension, a raising
CSV or Excel parser, or a failing URL fetch/parse — stores `none` in the
session's `dcc.Store`, whatever snapshot it held before (`prev` is arbitrary:
the callback output replaces it unconditionally). -/
theorem c4_failure_clears_store (env : Env) (prev : Option Snapshot)
    (c : UploadContents) (n : Nat) (fn : String) (u e : String) :
    (strContains fn "csv" = false → strContains fn "xls" = false →
      nextStore prev (update_data_store env .upload_data (some c) n fn none) = none) ∧
    (strContains fn "csv" = true →
      env.read_csv (env.b64decode c.contentString) = Except.error e →
      nextStore prev (update_data_store env .upload_data (some c) n fn none) = none) ∧
    (strContains fn "csv" = false → strContains fn "xls" = true →
      env.read_excel (env.b64decode c.contentString) = Except.error e →
      nextStore prev (update_data_store env .upload_data (some c) n fn none) = none) ∧
    (u ≠ "" → env.read_csv_url u = Except.error e →
      nextStore prev (update_data_store env .load_url_button none n fn (some u)) = none) := by
  refine ⟨?_, ?_, ?_, ?_⟩
  · intro hcsv hxls
    simp [nextStore, update_data_store, parse_contents, hcsv, hxls]
  · intro hcsv herr
    simp [nextStore, update_data_store, parse_contents, hcsv, herr]
  · intro hcsv hxls herr
    simp [nextStore, update_data_store, parse_contents, hcsv, hxls, herr]
  · intro hu herr
    have hb : (u == "") = false := beq_eq_false_iff_ne.mpr hu
    simp [nextStore, update_data_store, truthyOptStr, hb, herr]

/-- C4, witness: a previously stored snapshot (`demoSnap`) is wiped when an
upload named `data.csv` hits a raising CSV parser. -/
theorem c4_witness :
    nextStore (some demoSnap)
      (update_data_store errEnv .upload_data (some demoContents) 1 "data.csv" none) = none :=
  (c4_failure_clears_store errEnv (some demoSnap) demoContents 1 "data.csv" "" "boom").2.1
    (by decide) rfl

/-- C5: when the filename selects a parser and that parser raises, the
result is no dataframe with the fixed generic message — one constant string
however the exception text `e` varies, so no text of the underlying
exception reaches the user — while `e` itself is printed to the operator
log. -/
theorem c5_parse_error_generic (env : Env) (c : UploadContents) (fn e : String) :
    (strContains fn "csv" = true →
      env.read_csv (env.b64decode c.contentString) = Except.error e →
      parse_contents env c fn = (none, "Ocorreu um erro ao processar o arquivo.", [e])) ∧
    (strContains fn "csv" = false → strContains fn "xls" = true →
      env.read_excel (env.b64decode c.contentString) = Except.error e →
      parse_contents env c fn = (none, "Ocorreu um erro ao processar o arquivo.", [e])) := by
  constructor
  · intro hcsv herr
    simp [parse_contents, hcsv, herr]
  · intro hcsv hxls herr
    simp [parse_contents, hcsv, hxls, herr]

/-- C5, witness: the raising CSV parser of `errEnv` (exception text `boom`)
on upload `data.csv` yields the generic message and logs `boom`. -/
theorem c5_witness :
    parse_contents errEnv demoContents "data.csv" =
      (none, "Ocorreu um erro ao processar o arquivo.", ["boom"]) :=
  (c5_parse_error_generic errEnv demoContents "data.csv" "boom").1 (by decide) rfl

/-- C6: a failing URL fetch/parse clears the store and reports a red status
whose text is the fetch-error prefix followed by the underlying exception
text — the raw error is surfaced to the user, unlike the upload path. -/
theorem c6_fetch_error_surfaces_detail (env : Env) (n : Nat) (fn : String) (u e : String)
    (hu : u ≠ "") (he : env.read_csv_url u = Except.error e) :
    (update_data_store env .load_url_button none n fn (some u)).1 = none ∧
    (update_data_store env .load_url_button none n fn (some u)).2 =
      ⟨"Erro ao carregar do link: " ++ e, "red"⟩ ∧
    strContains (update_data_store env .load_url_button none n fn (some u)).2.text e = true := by
  have hb : (u == "") = false := beq_eq_false_iff_ne.mpr hu
  have hout : update_data_store env .load_url_button none n fn (some u) =
      (none, ⟨"Erro ao carregar do link: " ++ e, "red"⟩) := by
    simp [update_data_store, truthyOptStr, hb, he]
  refine ⟨by rw [hout], by rw [hout], ?_⟩
  rw [hout]
  exact strContains_append_right "Erro ao carregar do link: " e

/-- C6, witness: the failing fetch of `errEnv` (exception text `boom`) on a
concrete URL produces the red status carrying `boom`. -/
theorem c6_witness :
    (update_data_store errEnv .load_url_button none 1 "" (some "http://x/d.csv")).1 = none ∧
    (update_data_store errEnv .load_url_button none 1 "" (some "http://x/d.csv")).2 =
      ⟨"Erro ao carregar do link: " ++ "boom", "red"⟩ :=
  have h := c6_fetch_error_surfaces_detail errEnv 1 "" "http://x/d.csv" "boom"
    (by decide) rfl
  ⟨h.1, h.2.1⟩

/-- C7: projecting an absent snapshot hides the visualization container and
returns empty dropdown options with no default selections. -/
theorem c7_project_none :
    update_dropdowns_and_visibility none = ("none", [], [], none, none) := rfl

/-- C8: projecting a present snapshot shows the container, lists the column
names in stored order (as both option lists, label equal to value), and takes
the first column as the x default and the second as the y default — `none`
when the dataset has too few columns. -/
theorem c8_project_some (s : Snapshot) :
    (update_dropdowns_and_visibility (some s)).1 = "block" ∧
    (update_dropdowns_and_visibility (some s)).2.1 =
      (deserialize s).columns.map (fun i => (i, i)) ∧
    (update_dropdowns_and_visibility (some s)).2.2.1 =
      (deserialize s).columns.map (fun i => (i, i)) ∧
    (update_dropdowns_and_visibility (some s)).2.2.2.1 = (deserialize s).columns[0]? ∧
    (update_dropdowns_and_visibility (some s)).2.2.2.2 = (deserialize s).columns[1]? ∧
    ((deserialize s).columns = [] →
      (update_dropdowns_and_visibility (some s)).2.2.2.1 = none ∧
      (update_dropdowns_and_visibility (some s)).2.2.2.2 = none) ∧
    (∀ a t, (deserialize s).columns = a :: t →
      (update_dropdowns_and_visibility (some s)).2.2.2.1 = some a) ∧
    (∀ a b t, (deserialize s).columns = a :: b :: t →
      (update_dropdowns_and_visibility (some s)).2.2.2.2 = some b) ∧
    (∀ a, (deserialize s).columns = [a] →
      (update_dropdowns_and_visibility (some s)).2.2.2.2 = none) := by
  refine ⟨rfl, rfl, rfl, rfl, rfl, ?_, ?_, ?_, ?_⟩
  · intro h
    constructor <;> simp [update_dropdowns_and_visibility, h]
  · intro a t h
    simp [update_dropdowns_and_visibility, h]
  · intro a b t h
    simp [update_dropdowns_and_visibility, h]
  · intro a h
    simp [update_dropdowns_and_visibility, h]

/-- C8, witness: on the one-column snapshot the container is shown, the x
default is the single column `a`, and the y default is none. -/
theorem c8_witness :
    (update_dropdowns_and_visibility (some oneColSnap)).1 = "block" ∧
    (update_dropdowns_and_visibility (some oneColSnap)).2.2.2.1 = some "a" ∧
    (update_dropdowns_and_visibility (some oneColSnap)).2.2.2.2 = none := by
  obtain ⟨h1, _, _, _, _, _, h7, _, h9⟩ := c8_project_some oneColSnap
  exact ⟨h1, h7 "a" [] rfl, h9 "a" rfl⟩

/-- Serialization then deserialization of one cell is exactly date
normalization. -/
theorem deserialize_serialize_scalar (v : Scalar) :
    deserializeScalar (serializeScalar v) = normalizeScalar v := by
  cases v <;> rfl

/-- A cell that is not a raw date is unchanged by normalization. -/
theorem normalizeScalar_of_normal (v : Scalar) (h : normalScalar v = true) :
    normalizeScalar v = v := by
  cases v <;> simp [normalScalar] at h ⊢ <;> rfl

/-- A row with no raw date cells is unchanged by normalization. -/
theorem row_normalize_of_normal (r : List Scalar) (h : r.all normalScalar = true) :
    r.map normalizeScalar = r := by
  induction r with
  | nil => rfl
  | cons a t ih =>
    rw [List.all_cons, Bool.and_eq_true] at h
    simp [normalizeScalar_of_normal a h.1, ih h.2]

/-- C9: deserializing the serialized snapshot of a dataset reproduces its
column names and order exactly, and its rows up to date normalization (dates
become their canonical ISO text); for datasets with no raw date cells the
round trip is the identity. -/
theorem c9_snapshot_roundtrip (d : Dataset) :
    (deserialize (serialize d)).columns = d.columns ∧
    deserialize (serialize d) = normalizeDataset d ∧
    (normalDataset d = true → deserialize (serialize d) = d) := by
  have hcomp : (deserializeScalar ∘ serializeScalar) = normalizeScalar :=
    funext deserialize_serialize_scalar
  have hmain : deserialize (serialize d) = normalizeDataset d := by
    simp only [deserialize, serialize, normalizeDataset, List.map_map]
    refine congrArg (Dataset.mk d.columns) ?_
    refine List.map_congr_left ?_
    intro r _
    show (r.map serializeScalar).map deserializeScalar = r.map normalizeScalar
    rw [List.map_map, hcomp]
  refine ⟨by rw [hmain]; rfl, hmain, ?_⟩
  intro hnorm
  rw [hmain]
  show normalizeDataset d = d
  have hrows : d.rows.map (fun r => r.map normalizeScalar) = d.rows := by
    rw [normalDataset, List.all_eq_true] at hnorm
    calc d.rows.map (fun r => r.map normalizeScalar)
        = d.rows.map id :=
          List.map_congr_left (fun r hr => row_normalize_of_normal r (hnorm r hr))
      _ = d.rows := List.map_id d.rows
  simp [normalizeDataset, hrows]

/-- C9, witness: the demo dataset has no raw date cells, so the round trip
reproduces it verbatim; the date dataset's round trip equals its
normalization, with the date cell rendered as canonical ISO text. -/
theorem c9_witness :
    normalDataset demoDataset = true ∧
    deserialize (serialize demoDataset) = demoDataset :=
  ⟨by decide, (c9_snapshot_roundtrip demoDataset).2.2 (by decide)⟩

/-- C10: when a filename contains both `csv` and `xls` as (case-sensitive)
substrings, `parse_contents` takes the CSV branch: the `if csv in filename`
arm precedes the `elif xls in filename` arm. -/
theorem c10_csv_precedes_xls (env : Env) (c : UploadContents) (fn : String)
    (hcsv : strContains fn "csv" = true) (_hxls : strContains fn "xls" = true) :
    parse_contents env c fn = csvBranch env c fn := by
  simp [parse_contents, csvBranch, hcsv]

/-- C10, witness: the filename `relatorio.csv.xls` contains both markers and
the CSV parser's outcome is the one returned. -/
theorem c10_witness :
    strContains "relatorio.csv.xls" "csv" = true ∧
    strContains "relatorio.csv.xls" "xls" = true ∧
    parse_contents demoEnv demoContents "relatorio.csv.xls" =
      csvBranch demoEnv demoContents "relatorio.csv.xls" :=
  ⟨by decide, by decide,
    c10_csv_precedes_xls demoEnv demoContents "relatorio.csv.xls" (by decide) (by decide)⟩

end Projeto
